import Mathlib

/-!
# The HD44780 command layer of `LiquidCrystal.cpp`

A shallow embedding of the base class `LiquidCrystal` (file `src/LiquidCrystal.cpp`).

* The object is a record of the three members the file reads and writes
  (`_displaycontrol`, `_displaymode`, `_numlines`, all `uint8_t`), together with the
  trace of the calls the class makes to its two external collaborators: the pure
  virtual `send(value, mode)` of the transport and `delayMicroseconds(us)`.
* `uint8_t` values are naturals below 256. Expressions are computed in `int`, as C promotes
  them, and every store of such an expression into a `uint8_t` member, local or parameter
  (the argument of `command` and `write`) is written `% 256`. The arguments of the other
  operations are taken as the caller gives them; theorems bound them where it matters.
* An array read outside the array has no defined result: the operation returns `none`.
* The body of `begin` is not in the two source files (`LiquidCrystal_I2C.h` declares it):
  `begin`, `functionSet` and `writeNibble` follow the specification of the driver.
-/

namespace LiquidCrystal

/-! ## Constants of the absent headers -/

/-- Modelled from the spec: the macro `LOW` of the absent `Arduino.h`; the register-select
level of a command ("sends with RS=0"). -/
def LOW : Nat := 0

/-- Modelled from the spec: the macro `HIGH` of the absent `Arduino.h`; the register-select
level of a data byte ("sends with RS=1"). -/
def HIGH : Nat := 1

/-- Modelled from the spec: macro of the absent header; command catalogue, "Clear display
`0x01`". -/
def LCD_CLEARDISPLAY : Nat := 0x01

/-- Modelled from the spec: macro of the absent header; command catalogue, "Return home
`0x02`". -/
def LCD_RETURNHOME : Nat := 0x02

/-- Modelled from the spec: macro of the absent header; command catalogue, "Entry mode set
`0x04 | entryMode`". -/
def LCD_ENTRYMODESET : Nat := 0x04

/-- Modelled from the spec: macro of the absent header; command catalogue, "Display control
`0x08 | displayControl`". -/
def LCD_DISPLAYCONTROL : Nat := 0x08

/-- Modelled from the spec: macro of the absent header; command catalogue, "Cursor/display
shift `0x10 | {displayMove?, direction}`". -/
def LCD_CURSORSHIFT : Nat := 0x10

/-- Modelled from the spec: macro of the absent header; command catalogue, "Set CGRAM address
`0x40 | addr(0..0x3F)`". -/
def LCD_SETCGRAMADDR : Nat := 0x40

/-- Modelled from the spec: macro of the absent header; command catalogue, "Set DDRAM address
`0x80 | addr(0..0x7F)`". -/
def LCD_SETDDRAMADDR : Nat := 0x80

/-- Modelled from the spec: macro of the absent header; the display on/off flag of the
display-control register. The wire format is "exactly the HD44780 command set", whose
display-control instruction carries the display bit at `0x04`. -/
def LCD_DISPLAYON : Nat := 0x04

/-- Modelled from the spec: macro of the absent header; the underline-cursor flag of the
display-control register, bit `0x02` of the HD44780 display-control instruction. -/
def LCD_CURSORON : Nat := 0x02

/-- Modelled from the spec: macro of the absent header; the blink flag of the
display-control register, bit `0x01` of the HD44780 display-control instruction. -/
def LCD_BLINKON : Nat := 0x01

/-- Modelled from the spec: macro of the absent header; the cursor-advance direction flag of
the entry-mode register, bit `0x02` of the HD44780 entry-mode instruction (scenario 6:
`rightToLeft` on a fresh left-to-right instance sends `0x04 | 0x00`). -/
def LCD_ENTRYLEFT : Nat := 0x02

/-- Modelled from the spec: macro of the absent header; the display-shift-on-write flag of
the entry-mode register (scenario 6: `autoscroll` sends `0x04 | 0x01`). -/
def LCD_ENTRYSHIFTINCREMENT : Nat := 0x01

/-- Modelled from the spec: macro of the absent header; the `displayMove` flag of the shift
instruction, bit `0x08` of the HD44780 cursor/display-shift instruction. -/
def LCD_DISPLAYMOVE : Nat := 0x08

/-- Modelled from the spec: macro of the absent header; the direction flag of the shift
instruction, bit `0x04` of the HD44780 cursor/display-shift instruction. -/
def LCD_MOVERIGHT : Nat := 0x04

/-- Modelled from the spec: macro of the absent header; the left direction of the shift
instruction, direction bit clear. -/
def LCD_MOVELEFT : Nat := 0x00

/-- Modelled from the spec: macro of the absent header; command catalogue, "Function set
`0x20 | {8-bit?, 2-line?, 5×10?}`". -/
def LCD_FUNCTIONSET : Nat := 0x20

/-- Modelled from the spec: macro of the absent header; the 4-bit bus width of the function
set, bus-width bit `0x10` of the HD44780 function-set instruction clear. -/
def LCD_4BITMODE : Nat := 0x00

/-- Modelled from the spec: macro of the absent header; the "2+" line count of the function
set, bit `0x08` of the HD44780 function-set instruction. -/
def LCD_2LINE : Nat := 0x08

/-- Modelled from the spec: macro of the absent header; the 5×10 font of the function set,
bit `0x04` of the HD44780 function-set instruction. -/
def LCD_5x10DOTS : Nat := 0x04

/-- Modelled from the spec: macro of the absent header; the 5×8 font of the function set,
font bit clear. -/
def LCD_5x8DOTS : Nat := 0x00

/-! ## Data model -/

/-- One call made by the class to an external collaborator. `send` and `delayMicroseconds`
are the calls of `LiquidCrystal.cpp`; `writeNibble` is the transport primitive
`writeNibble(valueLowNibble, rs)` of the spec (§4.1), which only the initialisation
sequence uses. -/
inductive Event where
  | send (value : Nat) (mode : Nat)
  | delayMicroseconds (us : Nat)
  | writeNibble (value : Nat) (rs : Nat)
  deriving DecidableEq, Repr

/-- Modelled from the spec: the character size of the display geometry,
`charSize ∈ {5×8, 5×10}`. -/
inductive CharSize where
  | dots5x8
  | dots5x10
  deriving DecidableEq, Repr

end LiquidCrystal

/-- The members of `LiquidCrystal` used by `LiquidCrystal.cpp`, and the trace of the
external calls made so far (oldest first). -/
structure LiquidCrystal where
  _displaycontrol : Nat
  _displaymode : Nat
  _numlines : Nat
  trace : List LiquidCrystal.Event
  deriving DecidableEq, Repr

namespace LiquidCrystal

/-- The operand `~x` of `&= ~x`: the complement is taken in `int`; its conjunction with a
`uint8_t` member keeps the eight low bits only, which is what this gives. -/
def bitNot8 (x : Nat) : Nat := 0xFF ^^^ x

/-! ## Operations -/

/-- The pure virtual `send(value, mode)` of the transport: recorded in the trace. -/
def send (s : LiquidCrystal) (value : Nat) (mode : Nat) : LiquidCrystal :=
  { s with trace := s.trace ++ [Event.send value mode] }

/-- The external `delayMicroseconds(us)`: recorded in the trace. -/
def delayMicroseconds (s : LiquidCrystal) (us : Nat) : LiquidCrystal :=
  { s with trace := s.trace ++ [Event.delayMicroseconds us] }

/-- `LiquidCrystal::command(uint8_t value)`: the argument, an `int` expression at the call
sites of this file, is converted to `uint8_t` by the call. -/
def command (s : LiquidCrystal) (value : Nat) : LiquidCrystal :=
  s.send (value % 256) LOW

/-- `LiquidCrystal::write(uint8_t value)`, with its `size_t` result. -/
def write (s : LiquidCrystal) (value : Nat) : LiquidCrystal × Nat :=
  (s.send (value % 256) HIGH, 1)

/-- `LiquidCrystal::clear()`. -/
def clear (s : LiquidCrystal) : LiquidCrystal :=
  (s.command LCD_CLEARDISPLAY).delayMicroseconds 2000

/-- `LiquidCrystal::home()`. -/
def home (s : LiquidCrystal) : LiquidCrystal :=
  (s.command LCD_RETURNHOME).delayMicroseconds 2000

/-- The local table `int row_offsets[] = { 0x00, 0x40, 0x14, 0x54 }` of `setCursor`. -/
def row_offsets : List Nat := [0x00, 0x40, 0x14, 0x54]

/-- The value of `row` after the `if ( row > _numlines ) row = _numlines-1;` of `setCursor`:
the index used for `row_offsets`. The difference is computed in `int` and stored in a
`uint8_t`. -/
def setCursorRow (s : LiquidCrystal) (row : Nat) : Nat :=
  if row > s._numlines then (s._numlines + 256 - 1) % 256 else row

/-- `LiquidCrystal::setCursor(uint8_t col, uint8_t row)`; `none` when `row_offsets` is read
outside its four entries. -/
def setCursor (s : LiquidCrystal) (col : Nat) (row : Nat) : Option LiquidCrystal :=
  match row_offsets[s.setCursorRow row]? with
  | none => none
  | some offset => some (s.command (LCD_SETDDRAMADDR ||| (col + offset)))

/-- `LiquidCrystal::noDisplay()`. -/
def noDisplay (s : LiquidCrystal) : LiquidCrystal :=
  let s1 := { s with _displaycontrol := (s._displaycontrol &&& bitNot8 LCD_DISPLAYON) % 256 }
  s1.command (LCD_DISPLAYCONTROL ||| s1._displaycontrol)

/-- `LiquidCrystal::display()`. -/
def display (s : LiquidCrystal) : LiquidCrystal :=
  let s1 := { s with _displaycontrol := (s._displaycontrol ||| LCD_DISPLAYON) % 256 }
  s1.command (LCD_DISPLAYCONTROL ||| s1._displaycontrol)

/-- `LiquidCrystal::noCursor()`. -/
def noCursor (s : LiquidCrystal) : LiquidCrystal :=
  let s1 := { s with _displaycontrol := (s._displaycontrol &&& bitNot8 LCD_CURSORON) % 256 }
  s1.command (LCD_DISPLAYCONTROL ||| s1._displaycontrol)

/-- `LiquidCrystal::cursor()`. -/
def cursor (s : LiquidCrystal) : LiquidCrystal :=
  let s1 := { s with _displaycontrol := (s._displaycontrol ||| LCD_CURSORON) % 256 }
  s1.command (LCD_DISPLAYCONTROL ||| s1._displaycontrol)

/-- `LiquidCrystal::noBlink()`. -/
def noBlink (s : LiquidCrystal) : LiquidCrystal :=
  let s1 := { s with _displaycontrol := (s._displaycontrol &&& bitNot8 LCD_BLINKON) % 256 }
  s1.command (LCD_DISPLAYCONTROL ||| s1._displaycontrol)

/-- `LiquidCrystal::blink()`. -/
def blink (s : LiquidCrystal) : LiquidCrystal :=
  let s1 := { s with _displaycontrol := (s._displaycontrol ||| LCD_BLINKON) % 256 }
  s1.command (LCD_DISPLAYCONTROL ||| s1._displaycontrol)

/-- `LiquidCrystal::scrollDisplayLeft()`. -/
def scrollDisplayLeft (s : LiquidCrystal) : LiquidCrystal :=
  s.command (LCD_CURSORSHIFT ||| LCD_DISPLAYMOVE ||| LCD_MOVELEFT)

/-- `LiquidCrystal::scrollDisplayRight()`. -/
def scrollDisplayRight (s : LiquidCrystal) : LiquidCrystal :=
  s.command (LCD_CURSORSHIFT ||| LCD_DISPLAYMOVE ||| LCD_MOVERIGHT)

/-- `LiquidCrystal::leftToRight()`. -/
def leftToRight (s : LiquidCrystal) : LiquidCrystal :=
  let s1 := { s with _displaymode := (s._displaymode ||| LCD_ENTRYLEFT) % 256 }
  s1.command (LCD_ENTRYMODESET ||| s1._displaymode)

/-- `LiquidCrystal::rightToLeft()`. -/
def rightToLeft (s : LiquidCrystal) : LiquidCrystal :=
  let s1 := { s with _displaymode := (s._displaymode &&& bitNot8 LCD_ENTRYLEFT) % 256 }
  s1.command (LCD_ENTRYMODESET ||| s1._displaymode)

/-- `LiquidCrystal::autoscroll()`. -/
def autoscroll (s : LiquidCrystal) : LiquidCrystal :=
  let s1 := { s with _displaymode := (s._displaymode ||| LCD_ENTRYSHIFTINCREMENT) % 256 }
  s1.command (LCD_ENTRYMODESET ||| s1._displaymode)

/-- `LiquidCrystal::noAutoscroll()`. -/
def noAutoscroll (s : LiquidCrystal) : LiquidCrystal :=
  let s1 := { s with _displaymode := (s._displaymode &&& bitNot8 LCD_ENTRYSHIFTINCREMENT) % 256 }
  s1.command (LCD_ENTRYMODESET ||| s1._displaymode)

/-- The byte `LCD_SETCGRAMADDR | (location << 3)` that `createChar` passes to `command`,
after `location &= 0x7`, as `command` receives it. -/
def createCharCommand (location : Nat) : Nat :=
  (LCD_SETCGRAMADDR ||| ((location &&& 0x7) <<< 3)) % 256

/-- `LiquidCrystal::createChar(uint8_t location, uint8_t charmap[])`: `charmap` is the array
the pointer refers to; `none` when `charmap[i]` is read past its end. -/
def createChar (s : LiquidCrystal) (location : Nat) (charmap : List Nat) : Option LiquidCrystal :=
  let location := location &&& 0x7
  let s1 := s.command (LCD_SETCGRAMADDR ||| (location <<< 3))
  (List.range 8).foldlM
    (fun st i =>
      match charmap[i]? with
      | none => none
      | some value => some (st.write value).1)
    s1

/-- Modelled from the spec: the transport primitive `writeNibble(valueLowNibble, rs)` of
§4.1, recorded in the trace. -/
def writeNibble (s : LiquidCrystal) (value : Nat) (rs : Nat) : LiquidCrystal :=
  { s with trace := s.trace ++ [Event.writeNibble value rs] }

/-- Modelled from the spec: the flags of the function set that `begin` writes (step 6 of the
initialisation): "4-bit bus, configured line count, configured font", the line count being
one of `{1, 2+}`. -/
def functionSet (rows : Nat) (charSize : CharSize) : Nat :=
  LCD_4BITMODE ||| (if rows > 1 then LCD_2LINE else 0) |||
    (match charSize with
     | CharSize.dots5x8 => LCD_5x8DOTS
     | CharSize.dots5x10 => LCD_5x10DOTS)

/-- Modelled from the spec: the body of `begin(cols, rows, charsize)`, which
`LiquidCrystal_I2C.h` only declares. The ten steps of "Initialization" (§4.2), each wait
being the stated minimum: wait 40 ms; nibble `0x3`, wait 4.5 ms; nibble `0x3`, wait 150 µs;
nibble `0x3`, wait 150 µs; nibble `0x2`, wait 150 µs; function set; display control with
display, cursor and blink off; clear display with its 2 ms wait; entry mode left-to-right
without display shift; display control with display on, cursor and blink off. The geometry
is "captured at `begin` time": `rows` goes to `_numlines`; `cols` goes to a member that
`LiquidCrystal.cpp` never reads. -/
def begin (s : LiquidCrystal) (_cols : Nat) (rows : Nat) (charSize : CharSize) : LiquidCrystal :=
  let s0 := { s with _numlines := rows }
  let s1 := s0.delayMicroseconds 40000
  let s2 := (s1.writeNibble 0x3 LOW).delayMicroseconds 4500
  let s3 := (s2.writeNibble 0x3 LOW).delayMicroseconds 150
  let s4 := (s3.writeNibble 0x3 LOW).delayMicroseconds 150
  let s5 := (s4.writeNibble 0x2 LOW).delayMicroseconds 150
  let s6 := s5.command (LCD_FUNCTIONSET ||| functionSet rows charSize)
  let s7a := { s6 with _displaycontrol := 0x00 }
  let s7 := s7a.command (LCD_DISPLAYCONTROL ||| s7a._displaycontrol)
  let s8 := s7.clear
  let s9a := { s8 with _displaymode := LCD_ENTRYLEFT }
  let s9 := s9a.command (LCD_ENTRYMODESET ||| s9a._displaymode)
  let s10a := { s9 with _displaycontrol := LCD_DISPLAYON }
  s10a.command (LCD_DISPLAYCONTROL ||| s10a._displaycontrol)

/-- The events of a trace that reach the controller: every event but the waits. -/
def Event.isTransport : Event → Bool
  | Event.send _ _ => true
  | Event.writeNibble _ _ => true
  | Event.delayMicroseconds _ => false

/-- The shadow registers hold flag bits only: `_displaycontrol` has no bit set outside `0x07`
and `_displaymode` has no bit set outside `0x03`. -/
def ShadowInv (s : LiquidCrystal) : Prop :=
  s._displaycontrol &&& 0x07 = s._displaycontrol ∧ s._displaymode &&& 0x03 = s._displaymode

instance (s : LiquidCrystal) : Decidable (ShadowInv s) :=
  inferInstanceAs (Decidable (_ ∧ _))

/-- The register value `t` is `r` with the bits of `mask` set and every other bit as in
`r`. -/
def SetsBits (mask : Nat) (r : Nat) (t : Nat) : Prop :=
  ∀ i, t.testBit i = (mask.testBit i || r.testBit i)

/-- The register value `t` is `r` with the bits of `mask` clear and every other bit as in
`r`. -/
def ClearsBits (mask : Nat) (r : Nat) (t : Nat) : Prop :=
  ∀ i, t.testBit i = (!mask.testBit i && r.testBit i)

/-- The states `s` and `t` have the same shadow registers and the same stored line
count. -/
def SameRegisters (s : LiquidCrystal) (t : LiquidCrystal) : Prop :=
  t._displaycontrol = s._displaycontrol ∧ t._displaymode = s._displaymode ∧
    t._numlines = s._numlines

instance (s : LiquidCrystal) (t : LiquidCrystal) : Decidable (SameRegisters s t) :=
  inferInstanceAs (Decidable (_ ∧ _ ∧ _))

/-- From `s` to `t` the bits of `mask` are set in `_displaycontrol`; every other bit of
it, `_displaymode` and the stored line count are unchanged. -/
def ControlBitSet (mask : Nat) (s : LiquidCrystal) (t : LiquidCrystal) : Prop :=
  SetsBits mask s._displaycontrol t._displaycontrol ∧ t._displaymode = s._displaymode ∧
    t._numlines = s._numlines

/-- From `s` to `t` the bits of `mask` are cleared in `_displaycontrol`; every other bit of
it, `_displaymode` and the stored line count are unchanged. -/
def ControlBitCleared (mask : Nat) (s : LiquidCrystal) (t : LiquidCrystal) : Prop :=
  ClearsBits mask s._displaycontrol t._displaycontrol ∧ t._displaymode = s._displaymode ∧
    t._numlines = s._numlines

/-- From `s` to `t` the bits of `mask` are set in `_displaymode`; every other bit of it,
`_displaycontrol` and the stored line count are unchanged. -/
def ModeBitSet (mask : Nat) (s : LiquidCrystal) (t : LiquidCrystal) : Prop :=
  SetsBits mask s._displaymode t._displaymode ∧ t._displaycontrol = s._displaycontrol ∧
    t._numlines = s._numlines

/-- From `s` to `t` the bits of `mask` are cleared in `_displaymode`; every other bit of it,
`_displaycontrol` and the stored line count are unchanged. -/
def ModeBitCleared (mask : Nat) (s : LiquidCrystal) (t : LiquidCrystal) : Prop :=
  ClearsBits mask s._displaymode t._displaymode ∧ t._displaycontrol = s._displaycontrol ∧
    t._numlines = s._numlines

/-- The six mutators of the display-control shadow register. -/
def displayControlMutators : List (LiquidCrystal → LiquidCrystal) :=
  [display, noDisplay, cursor, noCursor, blink, noBlink]

/-- The four mutators of the entry-mode shadow register. -/
def displayModeMutators : List (LiquidCrystal → LiquidCrystal) :=
  [leftToRight, rightToLeft, autoscroll, noAutoscroll]

/-! ## Arithmetic of bytes -/

theorem lor_lt_256 {a b : Nat} (ha : a < 256) (hb : b < 256) : a ||| b < 256 :=
  Nat.or_lt_two_pow (n := 8) ha hb

theorem lor_mod_256 {a b : Nat} (ha : a < 256) (hb : b < 256) : (a ||| b) % 256 = a ||| b :=
  Nat.mod_eq_of_lt (lor_lt_256 ha hb)

theorem lor_128_mod_256 (x : Nat) : (128 ||| x) % 256 = 128 ||| (x % 128) := by
  apply Nat.eq_of_testBit_eq
  intro i
  have h7 : (128 : Nat) = 2 ^ 7 := by norm_num
  have h8 : (256 : Nat) = 2 ^ 8 := by norm_num
  rw [h7, h8]
  simp only [Nat.testBit_mod_two_pow, Nat.testBit_or, Nat.testBit_two_pow]
  by_cases h : i < 7
  · have h1 : i < 8 := by omega
    have h2 : ¬ (7 = i) := by omega
    simp [h, h1, h2]
  · by_cases h2 : 7 = i
    · subst h2; simp
    · have h1 : ¬ i < 8 := by omega
      simp [h, h1, h2]

theorem lor_128_eq_add : ∀ y < 128, 128 ||| y = 128 + y := by
  decide

theorem row_offsets_lookup (row : Nat) (h : row < 4) :
    ∃ offset, row_offsets[row]? = some offset ∧ offset ≤ 0x54 := by
  interval_cases row <;> simp [row_offsets]

theorem setCursorRow_of_le {s : LiquidCrystal} {row : Nat} (h : row ≤ s._numlines) :
    s.setCursorRow row = row := by
  unfold setCursorRow
  rw [if_neg (by omega)]

theorem setCursorRow_of_gt {s : LiquidCrystal} {row : Nat} (h : s._numlines < row)
    (h1 : 1 ≤ s._numlines) (h256 : s._numlines < 256) :
    s.setCursorRow row = s._numlines - 1 := by
  unfold setCursorRow
  rw [if_pos h]
  omega

/-! ## `setCursor` -/

/-- What holds of the clamp of `setCursor`: for a row strictly above the line count
(`row > rows`, `rows` in 1..4) the command byte is `0x80 | (col + rowBase[rows-1])`, reduced
to eight bits. -/
theorem setCursor_row_above (s : LiquidCrystal) (col row : Nat)
    (h1 : 1 ≤ s._numlines) (h4 : s._numlines ≤ 4) (hrow : s._numlines < row) :
    ∃ offset, row_offsets[s._numlines - 1]? = some offset ∧
      s.setCursor col row =
        some { s with trace := s.trace ++ [Event.send ((0x80 ||| (col + offset)) % 256) LOW] } := by
  obtain ⟨offset, hoff, _⟩ := row_offsets_lookup (s._numlines - 1) (by omega)
  refine ⟨offset, hoff, ?_⟩
  unfold setCursor
  rw [setCursorRow_of_gt hrow h1 (by omega), hoff]
  rfl

/-- C1 (the code at the failing input): on a two-line display `setCursor(0, 2)` has
`row = rows`, the test `row > _numlines` is false, and the command byte is
`0x80 | (0 + rowBase[2]) = 0x94`; the clamp to `rows-1` would give
`0x80 | (0 + rowBase[1]) = 0xC0`. -/
theorem setCursor_row_eq_numlines_not_clamped :
    setCursor ⟨0x04, 0x02, 2, []⟩ 0 2 = some ⟨0x04, 0x02, 2, [Event.send 0x94 LOW]⟩ ∧
      row_offsets[2 - 1]? = some 0x40 ∧ 0x80 ||| (0 + 0x40) = 0xC0 ∧ (0x94 : Nat) ≠ 0xC0 := by
  decide

/-- C2 (the code at the failing input): on a four-line display `setCursor(0, 4)` keeps
`row = 4`, since `4 > 4` is false, and indexes the four-entry table `row_offsets` at 4,
outside the table. -/
theorem setCursor_row_four_outside_table :
    setCursorRow ⟨0x04, 0x02, 4, []⟩ 4 = 4 ∧ row_offsets.length = 4 ∧
      row_offsets[setCursorRow ⟨0x04, 0x02, 4, []⟩ 4]? = none ∧
      setCursor ⟨0x04, 0x02, 4, []⟩ 0 4 = none := by
  decide

/-- Away from `row = rows` the index of `setCursor` stays in the table: for `rows` in 1..4 and
every `row` other than `rows`, the index used is below 4. -/
theorem setCursorRow_lt_four (s : LiquidCrystal) (row : Nat)
    (h1 : 1 ≤ s._numlines) (h4 : s._numlines ≤ 4) (hne : row ≠ s._numlines) :
    s.setCursorRow row < 4 := by
  rcases Nat.lt_or_gt_of_ne hne with h | h
  · rw [setCursorRow_of_le (by omega)]; omega
  · rw [setCursorRow_of_gt h h1 (by omega)]; omega

/-- C3: for `row < rows ≤ 4` and `col + rowBase[row] ≤ 0x7F`, `setCursor(col, row)` changes
nothing but the trace, to which it appends the single command (RS=0)
`0x80 | (col + rowBase[row])`; `setCursor(5, 2)` on a four-row display sends `0x99`. -/
theorem setCursor_in_range (s : LiquidCrystal) (col row offset : Nat)
    (hrow : row < s._numlines) (hrows : s._numlines ≤ 4)
    (hoff : row_offsets[row]? = some offset) (hcol : col + offset ≤ 0x7F) :
    s.setCursor col row =
        some { s with trace := s.trace ++ [Event.send (0x80 ||| (col + offset)) LOW] } ∧
      setCursor { s with _numlines := 4 } 5 2 =
        some { s with _numlines := 4, trace := s.trace ++ [Event.send 0x99 LOW] } := by
  have hrow4 : row < 4 := by omega
  constructor
  · unfold setCursor
    rw [setCursorRow_of_le (by omega), hoff]
    simp only [command, send, LCD_SETDDRAMADDR]
    rw [lor_mod_256 (by norm_num) (by omega)]
  · simp [setCursor, setCursorRow, row_offsets, command, send, LCD_SETDDRAMADDR]

theorem setCursor_in_range_witness :
    setCursor ⟨0x04, 0x02, 2, []⟩ 3 1 = some ⟨0x04, 0x02, 2, [Event.send 0xC3 LOW]⟩ :=
  (setCursor_in_range ⟨0x04, 0x02, 2, []⟩ 3 1 0x40 (by decide) (by decide) (by decide)
    (by decide)).1

/-- C4: for `row < rows ≤ 4` and every `col` (0..255 and beyond), the byte `setCursor` hands to `send`
is `0x80 | ((col + rowBase[row]) mod 128)`: a byte with bit 7 set whose seven low bits are
the address modulo 128. -/
theorem setCursor_address_mod_128 (s : LiquidCrystal) (col row : Nat)
    (hrow : row < s._numlines) (hrows : s._numlines ≤ 4) :
    ∃ offset byte, row_offsets[row]? = some offset ∧
      s.setCursor col row = some { s with trace := s.trace ++ [Event.send byte LOW] } ∧
      byte = (0x80 ||| (col + offset)) % 256 ∧
      byte = 0x80 ||| ((col + offset) % 128) ∧
      byte < 256 ∧ byte.testBit 7 = true ∧ byte % 128 = (col + offset) % 128 := by
  obtain ⟨offset, hoff, _⟩ := row_offsets_lookup row (by omega)
  have hlt : (col + offset) % 128 < 128 := Nat.mod_lt _ (by norm_num)
  have hadd := lor_128_eq_add _ hlt
  refine ⟨offset, (0x80 ||| (col + offset)) % 256, hoff, ?_, rfl, lor_128_mod_256 _, ?_, ?_, ?_⟩
  · unfold setCursor
    rw [setCursorRow_of_le (by omega), hoff]
    rfl
  · exact Nat.mod_lt _ (by norm_num)
  · rw [lor_128_mod_256, Nat.testBit_or]
    have h7 : Nat.testBit 128 7 = true := by decide
    rw [h7, Bool.true_or]
  · rw [lor_128_mod_256, hadd]
    omega

theorem setCursor_address_mod_128_witness :
    ∃ offset byte, row_offsets[3]? = some offset ∧
      setCursor ⟨0x04, 0x02, 4, []⟩ 255 3 = some ⟨0x04, 0x02, 4, [Event.send byte LOW]⟩ ∧
      byte = (0x80 ||| (255 + offset)) % 256 ∧
      byte = 0x80 ||| ((255 + offset) % 128) ∧
      byte < 256 ∧ byte.testBit 7 = true ∧ byte % 128 = (255 + offset) % 128 :=
  setCursor_address_mod_128 ⟨0x04, 0x02, 4, []⟩ 255 3 (by decide) (by decide)

/-! ## The mutators of the shadow registers -/

theorem lor_flag_idem (a f : Nat) : ((a ||| f) % 256 ||| f) % 256 = (a ||| f) % 256 := by
  apply Nat.eq_of_testBit_eq
  intro i
  have h8 : (256 : Nat) = 2 ^ 8 := by norm_num
  rw [h8]
  simp only [Nat.testBit_mod_two_pow, Nat.testBit_or]
  cases decide (i < 8) <;> cases a.testBit i <;> cases f.testBit i <;> rfl

theorem land_mask_idem (a g : Nat) : ((a &&& g) % 256 &&& g) % 256 = (a &&& g) % 256 := by
  apply Nat.eq_of_testBit_eq
  intro i
  have h8 : (256 : Nat) = 2 ^ 8 := by norm_num
  rw [h8]
  simp only [Nat.testBit_mod_two_pow, Nat.testBit_and]
  cases decide (i < 8) <;> cases a.testBit i <;> cases g.testBit i <;> rfl

theorem command_shadow_trace (s : LiquidCrystal) (op x : Nat) (hop : op < 256) :
    (s.command (op ||| x % 256)).trace = s.trace ++ [Event.send (op ||| x % 256) LOW] := by
  simp only [command, send]
  rw [lor_mod_256 hop (Nat.mod_lt _ (by norm_num))]

set_option maxRecDepth 100000 in
theorem noDisplay_display_byte :
    ∀ dc < 256, ((dc &&& (0xFF ^^^ 0x04)) % 256 ||| 0x04) % 256 = dc ||| 0x04 ∧
      (dc ||| 0x04 = dc ↔ dc &&& 0x04 = 0x04) := by
  decide

/-- C5: each of the ten mutators appends exactly one event to the trace, a command (RS=0)
whose byte is the base opcode or-ed with the shadow register as the mutator leaves it:
`0x08 | _displaycontrol` for `display`, `noDisplay`, `cursor`, `noCursor`, `blink`,
`noBlink`, and `0x04 | _displaymode` for `leftToRight`, `rightToLeft`, `autoscroll`,
`noAutoscroll`. -/
theorem mutator_sends_opcode_or_shadow :
    (∀ m ∈ displayControlMutators, ∀ s : LiquidCrystal,
        (m s).trace = s.trace ++ [Event.send (0x08 ||| (m s)._displaycontrol) LOW]) ∧
      (∀ m ∈ displayModeMutators, ∀ s : LiquidCrystal,
        (m s).trace = s.trace ++ [Event.send (0x04 ||| (m s)._displaymode) LOW]) := by
  constructor
  · intro m hm s
    simp only [displayControlMutators, List.mem_cons, List.mem_singleton, List.not_mem_nil,
      or_false] at hm
    rcases hm with rfl | rfl | rfl | rfl | rfl | rfl
    · exact command_shadow_trace _ 0x08 _ (by norm_num)
    · exact command_shadow_trace _ 0x08 _ (by norm_num)
    · exact command_shadow_trace _ 0x08 _ (by norm_num)
    · exact command_shadow_trace _ 0x08 _ (by norm_num)
    · exact command_shadow_trace _ 0x08 _ (by norm_num)
    · exact command_shadow_trace _ 0x08 _ (by norm_num)
  · intro m hm s
    simp only [displayModeMutators, List.mem_cons, List.mem_singleton, List.not_mem_nil,
      or_false] at hm
    rcases hm with rfl | rfl | rfl | rfl
    · exact command_shadow_trace _ 0x04 _ (by norm_num)
    · exact command_shadow_trace _ 0x04 _ (by norm_num)
    · exact command_shadow_trace _ 0x04 _ (by norm_num)
    · exact command_shadow_trace _ 0x04 _ (by norm_num)

theorem mutator_sends_opcode_or_shadow_witness :
    (noCursor ⟨0x07, 0x02, 2, []⟩).trace
        = [] ++ [Event.send (0x08 ||| (noCursor ⟨0x07, 0x02, 2, []⟩)._displaycontrol) LOW] ∧
      (autoscroll ⟨0x04, 0x02, 2, []⟩).trace
        = [] ++ [Event.send (0x04 ||| (autoscroll ⟨0x04, 0x02, 2, []⟩)._displaymode) LOW] :=
  ⟨mutator_sends_opcode_or_shadow.1 noCursor (by simp [displayControlMutators])
      ⟨0x07, 0x02, 2, []⟩,
    mutator_sends_opcode_or_shadow.2 autoscroll (by simp [displayModeMutators])
      ⟨0x04, 0x02, 2, []⟩⟩

/-- C6 (the claim fails): from a state whose display bit is clear (`_displaycontrol = 0x00`,
as `noDisplay()` leaves a freshly initialised display), `noDisplay(); display()` ends with
`_displaycontrol = 0x04`, not the value before the two calls. -/
theorem noDisplay_display_not_identity :
    (display (noDisplay ⟨0x00, 0x02, 2, []⟩))._displaycontrol = 0x04 ∧
      (display (noDisplay ⟨0x00, 0x02, 2, []⟩))._displaycontrol
        ≠ (⟨0x00, 0x02, 2, []⟩ : LiquidCrystal)._displaycontrol := by
  decide

/-- C6 (amended): `noDisplay(); display()` leaves `_displaycontrol` equal to its value before
the two calls with the display bit `0x04` set; it is bitwise identical to the value before
exactly when the display bit was set before. -/
theorem noDisplay_display_shadow (s : LiquidCrystal) (h : s._displaycontrol < 256) :
    (display (noDisplay s))._displaycontrol = s._displaycontrol ||| 0x04 ∧
      ((display (noDisplay s))._displaycontrol = s._displaycontrol ↔
        s._displaycontrol &&& 0x04 = 0x04) := by
  have key := noDisplay_display_byte s._displaycontrol h
  have e : (display (noDisplay s))._displaycontrol
      = ((s._displaycontrol &&& (0xFF ^^^ 0x04)) % 256 ||| 0x04) % 256 := rfl
  rw [e, key.1]
  exact ⟨rfl, key.2⟩

theorem noDisplay_display_shadow_witness :
    (display (noDisplay ⟨0x07, 0x02, 2, []⟩))._displaycontrol = 0x07 ||| 0x04 ∧
      ((display (noDisplay ⟨0x07, 0x02, 2, []⟩))._displaycontrol = 0x07 ↔
        0x07 &&& 0x04 = 0x04) :=
  noDisplay_display_shadow ⟨0x07, 0x02, 2, []⟩ (by decide)

/-- C7: calling any of the ten mutators a second time leaves `_displaycontrol` and
`_displaymode` as the first call left them and sends the same command byte again. -/
theorem mutator_retry_idempotent :
    ∀ m ∈ displayControlMutators ++ displayModeMutators, ∀ s : LiquidCrystal,
      (m (m s))._displaycontrol = (m s)._displaycontrol ∧
      (m (m s))._displaymode = (m s)._displaymode ∧
      ∃ byte, (m s).trace = s.trace ++ [Event.send byte LOW] ∧
        (m (m s)).trace = (m s).trace ++ [Event.send byte LOW] := by
  intro m hm s
  simp only [displayControlMutators, displayModeMutators, List.cons_append, List.nil_append,
    List.mem_cons, List.mem_singleton, List.not_mem_nil, or_false] at hm
  rcases hm with rfl | rfl | rfl | rfl | rfl | rfl | rfl | rfl | rfl | rfl
  · exact ⟨lor_flag_idem _ _, rfl, _, rfl, by
      simp only [display, command, send, lor_flag_idem]⟩
  · exact ⟨land_mask_idem _ _, rfl, _, rfl, by
      simp only [noDisplay, command, send, land_mask_idem]⟩
  · exact ⟨lor_flag_idem _ _, rfl, _, rfl, by
      simp only [cursor, command, send, lor_flag_idem]⟩
  · exact ⟨land_mask_idem _ _, rfl, _, rfl, by
      simp only [noCursor, command, send, land_mask_idem]⟩
  · exact ⟨lor_flag_idem _ _, rfl, _, rfl, by
      simp only [blink, command, send, lor_flag_idem]⟩
  · exact ⟨land_mask_idem _ _, rfl, _, rfl, by
      simp only [noBlink, command, send, land_mask_idem]⟩
  · exact ⟨rfl, lor_flag_idem _ _, _, rfl, by
      simp only [leftToRight, command, send, lor_flag_idem]⟩
  · exact ⟨rfl, land_mask_idem _ _, _, rfl, by
      simp only [rightToLeft, command, send, land_mask_idem]⟩
  · exact ⟨rfl, lor_flag_idem _ _, _, rfl, by
      simp only [autoscroll, command, send, lor_flag_idem]⟩
  · exact ⟨rfl, land_mask_idem _ _, _, rfl, by
      simp only [noAutoscroll, command, send, land_mask_idem]⟩

theorem mutator_retry_idempotent_witness :
    (noBlink (noBlink ⟨0x07, 0x02, 2, []⟩))._displaycontrol
        = (noBlink ⟨0x07, 0x02, 2, []⟩)._displaycontrol ∧
      (noBlink (noBlink ⟨0x07, 0x02, 2, []⟩))._displaymode
        = (noBlink ⟨0x07, 0x02, 2, []⟩)._displaymode ∧
      ∃ byte, (noBlink ⟨0x07, 0x02, 2, []⟩).trace = [] ++ [Event.send byte LOW] ∧
        (noBlink (noBlink ⟨0x07, 0x02, 2, []⟩)).trace
          = (noBlink ⟨0x07, 0x02, 2, []⟩).trace ++ [Event.send byte LOW] :=
  mutator_retry_idempotent noBlink (by simp [displayControlMutators, displayModeMutators])
    ⟨0x07, 0x02, 2, []⟩

/-! ## `createChar` -/

theorem list_of_length_eight {α : Type} (l : List α) (h : l.length = 8) :
    ∃ a b c d e f g k, l = [a, b, c, d, e, f, g, k] := by
  match l, h with
  | [a, b, c, d, e, f, g, k], _ => exact ⟨a, b, c, d, e, f, g, k, rfl⟩

theorem createChar_eq (s : LiquidCrystal) (location : Nat) (charmap : List Nat) :
    s.createChar location charmap =
      (List.range 8).foldlM
        (fun st i =>
          match charmap[i]? with
          | none => none
          | some value => some (st.write value).1)
        (s.send (createCharCommand location) LOW) := rfl

theorem createChar_of_length_eight (s : LiquidCrystal) (location : Nat) (charmap : List Nat)
    (hlen : charmap.length = 8) :
    s.createChar location charmap =
      some { s with
        trace := s.trace ++ Event.send (createCharCommand location) LOW ::
          charmap.map (fun b => Event.send (b % 256) HIGH) } := by
  obtain ⟨a, b, c, d, e, f, g, k, rfl⟩ := list_of_length_eight charmap hlen
  rw [createChar_eq]
  simp [List.range, List.range.loop, List.foldlM, write, send]

set_option maxRecDepth 100000 in
theorem createCharCommand_eq :
    ∀ location < 256, location &&& 0x7 = location % 8 ∧
      createCharCommand location = 0x40 + 8 * (location % 8) ∧
      (createCharCommand location).testBit 7 = false := by
  decide

theorem createCharCommand_of_lt_eight :
    ∀ location < 8, createCharCommand location = 0x40 ||| (location <<< 3) := by
  decide

/-- C8: for a slot in 0..7 and a glyph of eight bytes, `createChar(slot, glyph)` changes
nothing but the trace, to which it appends nine sends: the command (RS=0)
`0x40 | (slot << 3)`, then the data writes (RS=1) of `glyph[0]`, ..., `glyph[7]`, unchanged
and in index order; for slot 2 the command byte is `0x50`. -/
theorem createChar_sends (s : LiquidCrystal) (slot : Nat) (glyph : List Nat)
    (hslot : slot < 8) (hlen : glyph.length = 8) (hbytes : ∀ b ∈ glyph, b < 256) :
    s.createChar slot glyph =
        some { s with
          trace := s.trace ++ Event.send (0x40 ||| (slot <<< 3)) LOW ::
            glyph.map (fun b => Event.send b HIGH) } ∧
      (Event.send (0x40 ||| (slot <<< 3)) LOW ::
          glyph.map (fun b => Event.send b HIGH)).length = 9 ∧
      s.createChar 2 glyph =
        some { s with
          trace := s.trace ++ Event.send 0x50 LOW ::
            glyph.map (fun b => Event.send b HIGH) } := by
  have hmap : glyph.map (fun b => Event.send (b % 256) HIGH)
      = glyph.map (fun b => Event.send b HIGH) := by
    apply List.map_congr_left
    intro b hb
    rw [Nat.mod_eq_of_lt (hbytes b hb)]
  refine ⟨?_, ?_, ?_⟩
  · rw [createChar_of_length_eight s slot glyph hlen, hmap,
      createCharCommand_of_lt_eight slot hslot]
  · simp [hlen]
  · rw [createChar_of_length_eight s 2 glyph hlen, hmap]
    rfl

theorem createChar_sends_witness :
    createChar ⟨0x04, 0x02, 2, []⟩ 2 [0x04, 0x0E, 0x1F, 0x04, 0x04, 0x04, 0x04, 0x00] =
      some ⟨0x04, 0x02, 2, [Event.send 0x50 LOW, Event.send 0x04 HIGH, Event.send 0x0E HIGH,
        Event.send 0x1F HIGH, Event.send 0x04 HIGH, Event.send 0x04 HIGH, Event.send 0x04 HIGH,
        Event.send 0x04 HIGH, Event.send 0x00 HIGH]⟩ :=
  (createChar_sends ⟨0x04, 0x02, 2, []⟩ 2 [0x04, 0x0E, 0x1F, 0x04, 0x04, 0x04, 0x04, 0x00]
    (by decide) (by decide) (by decide)).1

/-- C9: for every slot in 0..255 and every glyph of eight bytes, `createChar(slot, glyph)`
does exactly what `createChar(slot mod 8, glyph)` does; its command byte is
`0x40 + 8 * (slot mod 8)`, so it lies in `0x40..0x78`, has its three low bits zero and bit 7
clear, and addresses CGRAM within `0..0x3F`. -/
theorem createChar_slot_masked (s : LiquidCrystal) (slot : Nat) (glyph : List Nat)
    (hslot : slot < 256) (hlen : glyph.length = 8) :
    s.createChar slot glyph = s.createChar (slot % 8) glyph ∧
      (∃ s1, s.createChar slot glyph = some s1 ∧
        s1.trace = s.trace ++ Event.send (createCharCommand slot) LOW ::
          glyph.map (fun b => Event.send (b % 256) HIGH)) ∧
      createCharCommand slot = 0x40 + 8 * (slot % 8) ∧
      0x40 ≤ createCharCommand slot ∧ createCharCommand slot ≤ 0x78 ∧
      createCharCommand slot % 8 = 0 ∧
      (createCharCommand slot).testBit 7 = false ∧
      createCharCommand slot - 0x40 ≤ 0x3F := by
  obtain ⟨_, hcmd, hbit⟩ := createCharCommand_eq slot hslot
  obtain ⟨_, hcmd8, _⟩ := createCharCommand_eq (slot % 8) (by omega)
  have hsame : createCharCommand (slot % 8) = createCharCommand slot := by
    rw [hcmd, hcmd8, Nat.mod_mod]
  refine ⟨?_, ⟨_, createChar_of_length_eight s slot glyph hlen, rfl⟩, hcmd, ?_, ?_, ?_, hbit, ?_⟩
  · rw [createChar_eq, createChar_eq, hsame]
  · omega
  · omega
  · omega
  · omega

theorem createChar_slot_masked_witness :
    createChar ⟨0x04, 0x02, 2, []⟩ 0xFA [0x04, 0x0E, 0x1F, 0x04, 0x04, 0x04, 0x04, 0x00] =
      createChar ⟨0x04, 0x02, 2, []⟩ (0xFA % 8) [0x04, 0x0E, 0x1F, 0x04, 0x04, 0x04, 0x04, 0x00] ∧
      createCharCommand 0xFA = 0x40 + 8 * (0xFA % 8) :=
  have h := createChar_slot_masked ⟨0x04, 0x02, 2, []⟩ 0xFA
    [0x04, 0x0E, 0x1F, 0x04, 0x04, 0x04, 0x04, 0x00] (by decide) (by decide)
  ⟨h.1, h.2.2.1⟩

/-! ## `clear` and `home` -/

/-- C10: `clear()` appends to the trace exactly the command (RS=0) `0x01` followed by the
call `delayMicroseconds(2000)`, and `home()` exactly the command (RS=0) `0x02` followed by
`delayMicroseconds(2000)`, changing nothing else; the wait is of at least 2 ms, and a
`command` or `write` issued next is recorded after it. -/
theorem clear_home_trace (s : LiquidCrystal) :
    s.clear = { s with trace := s.trace ++
        [Event.send 0x01 LOW, Event.delayMicroseconds 2000] } ∧
      s.home = { s with trace := s.trace ++
        [Event.send 0x02 LOW, Event.delayMicroseconds 2000] } ∧
      2 * 1000 ≤ 2000 ∧
      (∀ v, (s.clear.command v).trace = s.trace ++
        [Event.send 0x01 LOW, Event.delayMicroseconds 2000, Event.send (v % 256) LOW]) ∧
      (∀ v, (s.clear.write v).1.trace = s.trace ++
        [Event.send 0x01 LOW, Event.delayMicroseconds 2000, Event.send (v % 256) HIGH]) ∧
      (∀ v, (s.home.command v).trace = s.trace ++
        [Event.send 0x02 LOW, Event.delayMicroseconds 2000, Event.send (v % 256) LOW]) ∧
      (∀ v, (s.home.write v).1.trace = s.trace ++
        [Event.send 0x02 LOW, Event.delayMicroseconds 2000, Event.send (v % 256) HIGH]) := by
  refine ⟨?_, ?_, by norm_num, ?_, ?_, ?_, ?_⟩ <;>
    simp [clear, home, command, write, send, delayMicroseconds, LCD_CLEARDISPLAY,
      LCD_RETURNHOME]

/-! ## `command`, `write` and the display shifts -/

/-- C11: for every byte value `v`, `write(v)` appends the single send of `v`, unchanged, with
RS=1, changes nothing else and returns 1; `command(v)` appends the single send of `v`,
unchanged, with RS=0, and changes nothing else. No byte is interpreted: newline and the
other control characters are sent like any other value. -/
theorem write_command_verbatim (s : LiquidCrystal) (v : Nat) (hv : v < 256) :
    s.write v = ({ s with trace := s.trace ++ [Event.send v HIGH] }, 1) ∧
      s.command v = { s with trace := s.trace ++ [Event.send v LOW] } := by
  refine ⟨?_, ?_⟩ <;> simp [write, command, send, Nat.mod_eq_of_lt hv]

theorem write_command_verbatim_witness :
    write ⟨0x04, 0x02, 2, []⟩ 0x0A = (⟨0x04, 0x02, 2, [Event.send 0x0A HIGH]⟩, 1) ∧
      command ⟨0x04, 0x02, 2, []⟩ 0x0A = ⟨0x04, 0x02, 2, [Event.send 0x0A LOW]⟩ :=
  write_command_verbatim ⟨0x04, 0x02, 2, []⟩ 0x0A (by decide)

/-- C12: `scrollDisplayLeft()` appends the single command (RS=0) `0x18` and
`scrollDisplayRight()` the single command (RS=0) `0x1C`, changing nothing else; both bytes
are the shift opcode `0x10` with the displayMove bit `0x08`, and they differ in the
direction bit `0x04` only. -/
theorem scrollDisplay_trace (s : LiquidCrystal) :
    s.scrollDisplayLeft = { s with trace := s.trace ++ [Event.send 0x18 LOW] } ∧
      s.scrollDisplayRight = { s with trace := s.trace ++ [Event.send 0x1C LOW] } ∧
      (0x18 : Nat) = 0x10 ||| 0x08 ∧ (0x1C : Nat) = 0x10 ||| 0x08 ||| 0x04 ∧
      (0x18 : Nat) ^^^ 0x1C = 0x04 := by
  refine ⟨?_, ?_, by decide, by decide, by decide⟩ <;>
    simp [scrollDisplayLeft, scrollDisplayRight, command, send, LCD_CURSORSHIFT,
      LCD_DISPLAYMOVE, LCD_MOVELEFT, LCD_MOVERIGHT]

/-- C13: from the entry mode of a fresh display (`_displaymode = 0x02`: left-to-right, no
display shift), `rightToLeft()` then `autoscroll()` append exactly the two commands (RS=0)
`0x04` and `0x05`, leave `_displaymode = 0x01` (direction bit clear, shift bit set) and
change nothing else. -/
theorem rightToLeft_autoscroll_fresh (dc numlines : Nat) (tr : List Event) :
    autoscroll (rightToLeft ⟨dc, 0x02, numlines, tr⟩) =
        ⟨dc, 0x01, numlines, tr ++ [Event.send 0x04 LOW, Event.send 0x05 LOW]⟩ ∧
      (0x01 : Nat) &&& 0x02 = 0 ∧ (0x01 : Nat) &&& 0x01 = 0x01 := by
  refine ⟨?_, by decide, by decide⟩
  simp [autoscroll, rightToLeft, command, send, bitNot8, LCD_ENTRYLEFT,
    LCD_ENTRYSHIFTINCREMENT, LCD_ENTRYMODESET]
  decide

/-! ## `begin` -/

theorem functionSet_le (rows : Nat) (charSize : CharSize) :
    functionSet rows charSize ≤ 0x0C ∧ functionSet rows charSize &&& 0x10 = 0 := by
  unfold functionSet
  cases charSize <;> by_cases h : rows > 1 <;>
    simp [h, LCD_4BITMODE, LCD_2LINE, LCD_5x8DOTS, LCD_5x10DOTS] <;> decide

set_option maxRecDepth 100000 in
theorem lor_functionSet : ∀ f < 13, (0x20 ||| f) % 256 = 0x20 ||| f ∧
    0x20 ≤ (0x20 ||| f) ∧ (0x20 ||| f) ≤ 0x2C := by
  decide

/-- C14: `begin(cols, rows, charSize)` sends to the controller, in this order and all with
RS=0, the single nibbles `0x3`, `0x3`, `0x3`, `0x2`, then the commands function set
(`0x20 | flags`, a byte in `0x20..0x2C`), display control with the display off (`0x08`),
clear (`0x01`), entry mode (`0x06`) and display control with the display on (`0x0C`); the
only other events are the waits between them. -/
theorem begin_trace (s : LiquidCrystal) (cols rows : Nat) (charSize : CharSize) :
    (s.begin cols rows charSize).trace = s.trace ++
        [Event.delayMicroseconds 40000,
         Event.writeNibble 0x3 LOW, Event.delayMicroseconds 4500,
         Event.writeNibble 0x3 LOW, Event.delayMicroseconds 150,
         Event.writeNibble 0x3 LOW, Event.delayMicroseconds 150,
         Event.writeNibble 0x2 LOW, Event.delayMicroseconds 150,
         Event.send (0x20 ||| functionSet rows charSize) LOW,
         Event.send 0x08 LOW,
         Event.send 0x01 LOW, Event.delayMicroseconds 2000,
         Event.send 0x06 LOW,
         Event.send 0x0C LOW] ∧
      ((s.begin cols rows charSize).trace.drop s.trace.length).filter Event.isTransport =
        [Event.writeNibble 0x3 LOW, Event.writeNibble 0x3 LOW, Event.writeNibble 0x3 LOW,
         Event.writeNibble 0x2 LOW,
         Event.send (0x20 ||| functionSet rows charSize) LOW,
         Event.send 0x08 LOW, Event.send 0x01 LOW, Event.send 0x06 LOW,
         Event.send 0x0C LOW] ∧
      0x20 ≤ (0x20 ||| functionSet rows charSize) ∧
      (0x20 ||| functionSet rows charSize) ≤ 0x2C := by
  obtain ⟨hle, _⟩ := functionSet_le rows charSize
  obtain ⟨hmod, hlo, hhi⟩ := lor_functionSet (functionSet rows charSize) (by omega)
  have htrace : (s.begin cols rows charSize).trace = s.trace ++
        [Event.delayMicroseconds 40000,
         Event.writeNibble 0x3 LOW, Event.delayMicroseconds 4500,
         Event.writeNibble 0x3 LOW, Event.delayMicroseconds 150,
         Event.writeNibble 0x3 LOW, Event.delayMicroseconds 150,
         Event.writeNibble 0x2 LOW, Event.delayMicroseconds 150,
         Event.send (0x20 ||| functionSet rows charSize) LOW,
         Event.send 0x08 LOW,
         Event.send 0x01 LOW, Event.delayMicroseconds 2000,
         Event.send 0x06 LOW,
         Event.send 0x0C LOW] := by
    simp only [begin, clear, command, send, writeNibble, delayMicroseconds, LCD_FUNCTIONSET,
      LCD_DISPLAYCONTROL, LCD_CLEARDISPLAY, LCD_ENTRYMODESET, LCD_ENTRYLEFT, LCD_DISPLAYON,
      hmod]
    simp
  refine ⟨htrace, ?_, hlo, hhi⟩
  rw [htrace, List.drop_left]
  simp [Event.isTransport]

/-! ## Frame of the operations -/

theorem setsBits_lor (r f : Nat) (hr : r < 256) (hf : f < 256) :
    SetsBits f r ((r ||| f) % 256) := by
  intro i
  rw [lor_mod_256 hr hf, Nat.testBit_or, Bool.or_comm]

theorem clearsBits_land (r f : Nat) (hr : r < 256) :
    ClearsBits f r ((r &&& bitNot8 f) % 256) := by
  intro i
  have h8 : (256 : Nat) = 2 ^ 8 := by norm_num
  have h255 : (0xFF : Nat) = 2 ^ 8 - 1 := by norm_num
  unfold bitNot8
  rw [h8, h255, Nat.testBit_mod_two_pow, Nat.testBit_and, Nat.testBit_xor,
    Nat.testBit_two_pow_sub_one]
  by_cases hi : i < 8
  · simp only [hi, decide_True, Bool.true_and]
    cases r.testBit i <;> cases f.testBit i <;> rfl
  · have hpow : (2 : Nat) ^ 8 ≤ 2 ^ i := Nat.pow_le_pow_right (by norm_num) (by omega)
    have hri : r.testBit i = false := Nat.testBit_lt_two_pow (by omega)
    simp [hi, hri]

/-- C15: each mutator changes its own flag bit and nothing else. `display`/`noDisplay` set and
clear bit `0x04`, `cursor`/`noCursor` bit `0x02`, `blink`/`noBlink` bit `0x01` of
`_displaycontrol`; `leftToRight`/`rightToLeft` set and clear bit `0x02`,
`autoscroll`/`noAutoscroll` bit `0x01` of `_displaymode`. Whatever the bit was, the on form
leaves it set and the off form leaves it clear; every other bit of that register, the other
register and the stored line count are unchanged. -/
theorem mutator_own_bit_only (s : LiquidCrystal)
    (hc : s._displaycontrol < 256) (hm : s._displaymode < 256) :
    ControlBitSet 0x04 s (display s) ∧ ControlBitCleared 0x04 s (noDisplay s) ∧
      ControlBitSet 0x02 s (cursor s) ∧ ControlBitCleared 0x02 s (noCursor s) ∧
      ControlBitSet 0x01 s (blink s) ∧ ControlBitCleared 0x01 s (noBlink s) ∧
      ModeBitSet 0x02 s (leftToRight s) ∧ ModeBitCleared 0x02 s (rightToLeft s) ∧
      ModeBitSet 0x01 s (autoscroll s) ∧ ModeBitCleared 0x01 s (noAutoscroll s) :=
  ⟨⟨setsBits_lor _ 0x04 hc (by norm_num), rfl, rfl⟩,
    ⟨clearsBits_land _ 0x04 hc, rfl, rfl⟩,
    ⟨setsBits_lor _ 0x02 hc (by norm_num), rfl, rfl⟩,
    ⟨clearsBits_land _ 0x02 hc, rfl, rfl⟩,
    ⟨setsBits_lor _ 0x01 hc (by norm_num), rfl, rfl⟩,
    ⟨clearsBits_land _ 0x01 hc, rfl, rfl⟩,
    ⟨setsBits_lor _ 0x02 hm (by norm_num), rfl, rfl⟩,
    ⟨clearsBits_land _ 0x02 hm, rfl, rfl⟩,
    ⟨setsBits_lor _ 0x01 hm (by norm_num), rfl, rfl⟩,
    ⟨clearsBits_land _ 0x01 hm, rfl, rfl⟩⟩

theorem mutator_own_bit_only_witness :
    ControlBitSet 0x04 ⟨0x03, 0x02, 2, []⟩ (display ⟨0x03, 0x02, 2, []⟩) ∧
      ModeBitCleared 0x01 ⟨0x03, 0x02, 2, []⟩ (noAutoscroll ⟨0x03, 0x02, 2, []⟩) :=
  have h := mutator_own_bit_only ⟨0x03, 0x02, 2, []⟩ (by decide) (by decide)
  ⟨h.1, h.2.2.2.2.2.2.2.2.2⟩

theorem createChar_fold_registers (charmap : List Nat) (l : List Nat) :
    ∀ st t : LiquidCrystal,
      l.foldlM
        (fun st i =>
          match charmap[i]? with
          | none => none
          | some value => some (st.write value).1)
        st = some t → SameRegisters st t := by
  induction l with
  | nil =>
    intro st t h
    simp only [List.foldlM, pure, Option.some.injEq] at h
    subst h
    exact ⟨rfl, rfl, rfl⟩
  | cons i l ih =>
    intro st t h
    rw [List.foldlM_cons] at h
    cases hc : charmap[i]? with
    | none => simp [hc] at h
    | some v =>
      simp only [hc, Option.bind_eq_bind, Option.some_bind] at h
      obtain ⟨h1, h2, h3⟩ := ih _ _ h
      exact ⟨h1, h2, h3⟩

theorem createChar_registers (s : LiquidCrystal) (location : Nat) (charmap : List Nat)
    (t : LiquidCrystal) (h : s.createChar location charmap = some t) : SameRegisters s t := by
  rw [createChar_eq] at h
  obtain ⟨h1, h2, h3⟩ := createChar_fold_registers charmap _ _ _ h
  exact ⟨h1, h2, h3⟩

theorem setCursor_registers (s : LiquidCrystal) (col row : Nat) (t : LiquidCrystal)
    (h : s.setCursor col row = some t) : SameRegisters s t := by
  unfold setCursor at h
  cases hc : row_offsets[s.setCursorRow row]? with
  | none => simp [hc] at h
  | some offset =>
    simp only [hc, Option.some.injEq] at h
    subst h
    exact ⟨rfl, rfl, rfl⟩

theorem shadowInv_of_registers {s t : LiquidCrystal} (h : ShadowInv s)
    (hst : SameRegisters s t) : ShadowInv t := by
  obtain ⟨h1, h2, _⟩ := hst
  unfold ShadowInv
  rw [h1, h2]
  exact h

theorem shadowInv_lt {s : LiquidCrystal} (h : ShadowInv s) :
    s._displaycontrol < 8 ∧ s._displaymode < 4 := by
  obtain ⟨h1, h2⟩ := h
  have e1 := Nat.and_pow_two_sub_one_eq_mod s._displaycontrol 3
  have e2 := Nat.and_pow_two_sub_one_eq_mod s._displaymode 2
  norm_num at e1 e2
  rw [e1] at h1
  rw [e2] at h2
  omega

theorem control_flag_bytes : ∀ f ∈ [0x01, 0x02, 0x04], ∀ dc < 8,
    ((dc ||| f) % 256 &&& 0x07 = (dc ||| f) % 256 ∧
      0x08 ≤ (0x08 ||| (dc ||| f) % 256) % 256 ∧
      (0x08 ||| (dc ||| f) % 256) % 256 ≤ 0x0F) ∧
    ((dc &&& bitNot8 f) % 256 &&& 0x07 = (dc &&& bitNot8 f) % 256 ∧
      0x08 ≤ (0x08 ||| (dc &&& bitNot8 f) % 256) % 256 ∧
      (0x08 ||| (dc &&& bitNot8 f) % 256) % 256 ≤ 0x0F) := by
  decide

theorem mode_flag_bytes : ∀ f ∈ [0x01, 0x02], ∀ dm < 4,
    ((dm ||| f) % 256 &&& 0x03 = (dm ||| f) % 256 ∧
      0x04 ≤ (0x04 ||| (dm ||| f) % 256) % 256 ∧
      (0x04 ||| (dm ||| f) % 256) % 256 ≤ 0x07) ∧
    ((dm &&& bitNot8 f) % 256 &&& 0x03 = (dm &&& bitNot8 f) % 256 ∧
      0x04 ≤ (0x04 ||| (dm &&& bitNot8 f) % 256) % 256 ∧
      (0x04 ||| (dm &&& bitNot8 f) % 256) % 256 ≤ 0x07) := by
  decide

/-- The initialisation sequence modelled from the spec ends in a state whose shadow
registers hold flag bits only (`_displaycontrol = 0x04`, `_displaymode = 0x02`). -/
theorem begin_shadowInv (s : LiquidCrystal) (cols rows : Nat) (charSize : CharSize) :
    (s.begin cols rows charSize)._displaycontrol = 0x04 ∧
      (s.begin cols rows charSize)._displaymode = 0x02 ∧
      (s.begin cols rows charSize)._numlines = rows ∧
      ShadowInv (s.begin cols rows charSize) :=
  ⟨rfl, rfl, rfl, (by decide : (0x04 : Nat) &&& 0x07 = 0x04),
    (by decide : (0x02 : Nat) &&& 0x03 = 0x02)⟩

/-- C16: the predicate "`_displaycontrol` has no bit set outside `0x07` and `_displaymode`
has no bit set outside `0x03`" is preserved by every operation of `LiquidCrystal.cpp`: the
ten mutators, `clear`, `home`, the two display shifts, `command`, `write`, `setCursor` and
`createChar`. In a state satisfying it every display-control mutator sends exactly one
command with a byte in `0x08..0x0F`, and every entry-mode mutator exactly one command with
a byte in `0x04..0x07`. -/
theorem shadowInv_preserved (s : LiquidCrystal) (h : ShadowInv s) :
    (∀ m ∈ displayControlMutators ++ displayModeMutators, ShadowInv (m s)) ∧
      ShadowInv s.clear ∧ ShadowInv s.home ∧
      ShadowInv s.scrollDisplayLeft ∧ ShadowInv s.scrollDisplayRight ∧
      (∀ v, ShadowInv (s.command v)) ∧ (∀ v, ShadowInv (s.write v).1) ∧
      (∀ col row t, s.setCursor col row = some t → ShadowInv t) ∧
      (∀ location charmap t, s.createChar location charmap = some t → ShadowInv t) ∧
      (∀ m ∈ displayControlMutators, ∃ byte,
        (m s).trace = s.trace ++ [Event.send byte LOW] ∧ 0x08 ≤ byte ∧ byte ≤ 0x0F) ∧
      (∀ m ∈ displayModeMutators, ∃ byte,
        (m s).trace = s.trace ++ [Event.send byte LOW] ∧ 0x04 ≤ byte ∧ byte ≤ 0x07) := by
  obtain ⟨hc, hm⟩ := shadowInv_lt h
  have c1 := control_flag_bytes 0x01 (by decide) _ hc
  have c2 := control_flag_bytes 0x02 (by decide) _ hc
  have c4 := control_flag_bytes 0x04 (by decide) _ hc
  have m1 := mode_flag_bytes 0x01 (by decide) _ hm
  have m2 := mode_flag_bytes 0x02 (by decide) _ hm
  refine ⟨?_, h, h, h, h, fun _ => h, fun _ => h, ?_, ?_, ?_, ?_⟩
  · intro m hmem
    simp only [displayControlMutators, displayModeMutators, List.cons_append, List.nil_append,
      List.mem_cons, List.mem_singleton, List.not_mem_nil, or_false] at hmem
    rcases hmem with rfl | rfl | rfl | rfl | rfl | rfl | rfl | rfl | rfl | rfl
    · exact ⟨c4.1.1, h.2⟩
    · exact ⟨c4.2.1, h.2⟩
    · exact ⟨c2.1.1, h.2⟩
    · exact ⟨c2.2.1, h.2⟩
    · exact ⟨c1.1.1, h.2⟩
    · exact ⟨c1.2.1, h.2⟩
    · exact ⟨h.1, m2.1.1⟩
    · exact ⟨h.1, m2.2.1⟩
    · exact ⟨h.1, m1.1.1⟩
    · exact ⟨h.1, m1.2.1⟩
  · intro col row t ht
    exact shadowInv_of_registers h (setCursor_registers s col row t ht)
  · intro location charmap t ht
    exact shadowInv_of_registers h (createChar_registers s location charmap t ht)
  · intro m hmem
    simp only [displayControlMutators, List.mem_cons, List.mem_singleton, List.not_mem_nil,
      or_false] at hmem
    rcases hmem with rfl | rfl | rfl | rfl | rfl | rfl
    · exact ⟨_, rfl, c4.1.2⟩
    · exact ⟨_, rfl, c4.2.2⟩
    · exact ⟨_, rfl, c2.1.2⟩
    · exact ⟨_, rfl, c2.2.2⟩
    · exact ⟨_, rfl, c1.1.2⟩
    · exact ⟨_, rfl, c1.2.2⟩
  · intro m hmem
    simp only [displayModeMutators, List.mem_cons, List.mem_singleton, List.not_mem_nil,
      or_false] at hmem
    rcases hmem with rfl | rfl | rfl | rfl
    · exact ⟨_, rfl, m2.1.2⟩
    · exact ⟨_, rfl, m2.2.2⟩
    · exact ⟨_, rfl, m1.1.2⟩
    · exact ⟨_, rfl, m1.2.2⟩

theorem shadowInv_preserved_witness :
    ShadowInv (cursor ⟨0x04, 0x02, 2, []⟩) ∧
      ∃ byte, (cursor ⟨0x04, 0x02, 2, []⟩).trace = [] ++ [Event.send byte LOW] ∧
        0x08 ≤ byte ∧ byte ≤ 0x0F :=
  have h := shadowInv_preserved ⟨0x04, 0x02, 2, []⟩ (by decide)
  ⟨h.1 cursor (by simp [displayControlMutators]),
    h.2.2.2.2.2.2.2.2.2.1 cursor (by simp [displayControlMutators])⟩

/-- C17: `clear`, `home`, `setCursor`, `scrollDisplayLeft`, `scrollDisplayRight`,
`createChar`, `command` and `write` leave `_displaycontrol`, `_displaymode` and the stored
line count unchanged, for every input; in particular the clamp of `setCursor` acts on its
own `row` and not on `_numlines`. -/
theorem operations_keep_registers (s : LiquidCrystal) :
    SameRegisters s s.clear ∧ SameRegisters s s.home ∧
      SameRegisters s s.scrollDisplayLeft ∧ SameRegisters s s.scrollDisplayRight ∧
      (∀ v, SameRegisters s (s.command v)) ∧ (∀ v, SameRegisters s (s.write v).1) ∧
      (∀ col row t, s.setCursor col row = some t → SameRegisters s t) ∧
      (∀ location charmap t, s.createChar location charmap = some t → SameRegisters s t) :=
  ⟨⟨rfl, rfl, rfl⟩, ⟨rfl, rfl, rfl⟩, ⟨rfl, rfl, rfl⟩, ⟨rfl, rfl, rfl⟩,
    fun _ => ⟨rfl, rfl, rfl⟩, fun _ => ⟨rfl, rfl, rfl⟩,
    setCursor_registers s, createChar_registers s⟩

theorem operations_keep_registers_witness :
    SameRegisters ⟨0x04, 0x02, 2, []⟩ ⟨0x04, 0x02, 2, [Event.send 0xC0 LOW]⟩ ∧
      SameRegisters ⟨0x04, 0x02, 2, []⟩
        ⟨0x04, 0x02, 2, [Event.send 0x48 LOW, Event.send 1 HIGH, Event.send 2 HIGH,
          Event.send 3 HIGH, Event.send 4 HIGH, Event.send 5 HIGH, Event.send 6 HIGH,
          Event.send 7 HIGH, Event.send 8 HIGH]⟩ :=
  have h := operations_keep_registers ⟨0x04, 0x02, 2, []⟩
  ⟨h.2.2.2.2.2.2.1 0 3 _ (by decide), h.2.2.2.2.2.2.2 9 [1, 2, 3, 4, 5, 6, 7, 8] _ (by decide)⟩

end LiquidCrystal
